import Mathlib

/-!
# Verification of the HID device configuration SDP codec

Shallow embedding of the repository's three source files:

* `lib.rs` — the data model (`LanguageCode`, `hid::LanguageBase`,
  `hid::ClassDescriptor`, `hid::Configuration`, `Configuration`);
* `from_sdp.rs` — the decoder from an SDP tagged-value tree to a
  `PartialConfiguration` draft and the finalizer
  (`TryFrom<PartialConfiguration> for Configuration`);
* `to_sdp.rs` — the encoder `Configuration::to_sdp_tag`.

The external tagged-value tree (`sdp_xml::Tag`) is embedded as an inductive
`Tag`; machine integers (`u8`, `u16`) become `Nat` (no arithmetic is performed
on them anywhere in the code, only construction and comparison, so no modular
reduction arises); `Vec<u8>` payloads become `List Nat`; Rust `Result` becomes
`Except`.  Decoding starts from the tag tree: the byte-level / XML parser
(`parse_sdp_xml`) is an external collaborator outside this repository.

Attribute-id, protocol, PSM and UUID constants come from external registries
(`hid_device_id`, `bluer`); their Bluetooth-assigned numeric values are fixed
external lookup tables reproduced here.
-/

namespace HidConfig

/-- The external tagged-value tree (`sdp_xml::Tag`): primitive leaves and
composite nodes, as used by this repository.  `RawText` carries raw bytes. -/
inductive Tag where
  | Boolean : Bool → Tag
  | UInt8 : Nat → Tag
  | UInt16 : Nat → Tag
  | Text : String → Tag
  | RawText : List Nat → Tag
  | Uuid : Nat → Tag
  | Sequence : List Tag → Tag
  | Attribute : Nat → Tag → Tag
  | Record : List Tag → Tag
  deriving Inhabited

/-! ## External constant registries

16-bit SDP attribute ids (`hid_device_id::bluetooth::attribute_id`),
protocol and PSM identifiers, and service-class UUIDs (`bluer`).
A 16-bit Bluetooth UUID `x` denotes the 128-bit UUID
`0000xxxx-0000-1000-8000-00805F9B34FB`. -/

namespace attribute_id

def SERVICE_CLASS_ID_LIST : Nat := 0x0001
def PROTOCOL_DESCRIPTOR_LIST : Nat := 0x0004
def BROWSE_GROUP_LIST : Nat := 0x0005
def LANGUAGE_BASE_ATTRIBUTE_ID_LIST : Nat := 0x0006
def BLUETOOTH_PROFILE_DESCRIPTOR_LIST : Nat := 0x0009
def ADDITIONAL_PROTOCOL_DESCRIPTOR_LISTS : Nat := 0x000D
def SERVICE_NAME : Nat := 0x0100
def SERVICE_DESCRIPTION : Nat := 0x0101
def PROVIDER_NAME : Nat := 0x0102

namespace hid

def HID_PARSER_VERSION : Nat := 0x0201
def HID_DEVICE_SUBCLASS : Nat := 0x0202
def HID_COUNTRY_CODE : Nat := 0x0203
def HID_VIRTUAL_CABLE : Nat := 0x0204
def HID_RECONNECT_INITIATE : Nat := 0x0205
def HID_DESCRIPTOR_LIST : Nat := 0x0206
def HID_LANG_BASE_ATTRIBUTE : Nat := 0x0207
def HID_BATTERY_POWER : Nat := 0x0209
def HID_REMOTE_WAKE : Nat := 0x020A
def HID_SUPERVISION_TIMEOUT : Nat := 0x020C
def HID_NORMALLY_CONNECTABLE : Nat := 0x020D
def HID_BOOT_DEVICE : Nat := 0x020E
def HID_SSR_HOST_MAX_LATENCY : Nat := 0x020F
def HID_SSR_HOST_MIN_TIMEOUT : Nat := 0x0210

end hid

end attribute_id

/-- `Uuid::from_u16` (`bluer::UuidExt`): a 16-bit alias expanded against the
Bluetooth base UUID `00000000-0000-1000-8000-00805F9B34FB`, viewed here as the
128-bit number it denotes. -/
def uuidFromU16 (x : Nat) : Nat := x * 2 ^ 96 + 0x00001000800000805F9B34FB

/-- `Uuid::from(ServiceClass::Hid)`: the HID service class, 16-bit alias 0x1124. -/
def HID_SERVICE_UUID : Nat := uuidFromU16 0x1124

/-- `Uuid::from(ServiceClass::PublicBrowseGroup)`: 16-bit alias 0x1002. -/
def PUBLIC_BROWSE_GROUP_UUID : Nat := uuidFromU16 0x1002

namespace protocol
def L2CAP : Nat := 0x0100
def HID_PROTOCOL : Nat := 0x0011
end protocol

namespace psm
def HID_CONTROL : Nat := 0x0011
def HID_INTERRUPT : Nat := 0x0013
end psm

/-! ## Data model (`lib.rs`) -/

/-- `LanguageCode` (lib.rs): two independent numeric identifiers for a language. -/
structure LanguageCode where
  iso_code : Nat
  hid_code : Nat
  deriving DecidableEq

namespace hid

/-- `hid::LanguageBase` (lib.rs). -/
structure LanguageBase where
  language : Nat
  base : Nat
  deriving DecidableEq

namespace descriptor_type
def REPORT : Nat := 0x22
def PHYSICAL : Nat := 0x23
end descriptor_type

/-- `hid::ClassDescriptor(pub u8, pub Vec<u8>)` (lib.rs): descriptor kind and
raw payload. -/
structure ClassDescriptor where
  kind : Nat
  data : List Nat
  deriving DecidableEq

/-- `hid::Configuration` (lib.rs). -/
structure Configuration where
  device_subclass : Nat
  country_code : Nat
  virtual_cable : Bool
  reconnect_initiate : Bool
  class_descriptors : List ClassDescriptor
  additional_languages : List LanguageBase
  battery_power : Option Bool
  remote_wake : Option Bool
  supervision_timeout : Option Nat
  normally_connectable : Option Bool
  boot_device : Bool
  ssr_host_max_latency : Option Nat
  ssr_host_min_timeout : Option Nat
  deriving DecidableEq

end hid

/-- Top-level `Configuration` (lib.rs). -/
structure Configuration where
  primary_language : LanguageCode
  encoding : Nat
  service_name : Option String
  service_description : Option String
  provider_name : Option String
  version : Nat
  hid : hid.Configuration
  deriving DecidableEq

/-! ## Decoder (`from_sdp.rs`) -/

/-- `from_sdp::Error`.  `XmlParseError` is omitted: the XML byte parser is
external and decoding here starts from the tag tree. -/
inductive Error where
  | ExpectedRecord : Tag → Error
  | ExpectedAttribute : Tag → Error
  | ExpectedSequence : Nat → Tag → Error
  | ExpectedBoolean : Nat → Tag → Error
  | ExpectedUInt8 : Nat → Tag → Error
  | ExpectedUInt16 : Nat → Tag → Error
  | ExpectedText : Nat → Tag → Error
  | ExpectedUuid : Nat → Tag → Error
  | UnexpectedSequenceLen : Nat → Nat → Nat → Error  -- attribute, expected, actual
  | UnexpectedUuid : Nat → Nat → Nat → Error  -- attribute, expected, actual
  | DuplicateValue : Nat → Error
  | DuplicateAttribute : Nat → String → Error
  | DuplicateDescriptorId : Error
  | DuplicateDescriptorText : Error
  | MissingRecord : String → Error
  | UnexpectedTag : Tag → Error

/-- `expect_boolean`. -/
def expectBoolean (attr_id : Nat) (tag : Tag) : Except Error Bool :=
  match tag with
  | .Boolean value => .ok value
  | _ => .error (.ExpectedBoolean attr_id tag)

/-- `expect_uint8`. -/
def expectUInt8 (attr_id : Nat) (tag : Tag) : Except Error Nat :=
  match tag with
  | .UInt8 value => .ok value
  | _ => .error (.ExpectedUInt8 attr_id tag)

/-- `expect_uint16`. -/
def expectUInt16 (attr_id : Nat) (tag : Tag) : Except Error Nat :=
  match tag with
  | .UInt16 value => .ok value
  | _ => .error (.ExpectedUInt16 attr_id tag)

/-- `expect_text`. -/
def expectText (attr_id : Nat) (tag : Tag) : Except Error String :=
  match tag with
  | .Text value => .ok value
  | _ => .error (.ExpectedText attr_id tag)

/-- `expect_sequence`. -/
def expectSequence (attr_id : Nat) (tag : Tag) : Except Error (List Tag) :=
  match tag with
  | .Sequence children => .ok children
  | _ => .error (.ExpectedSequence attr_id tag)

/-- `expect_len`. -/
def expectLen (attr_id : Nat) (sequence : List Tag) (len : Nat) : Except Error Unit :=
  if sequence.length ≠ len then
    .error (.UnexpectedSequenceLen attr_id len sequence.length)
  else
    .ok ()

/-- `expect_uuid`. -/
def expectUuid (attr_id : Nat) (tag : Tag) (expected : Nat) : Except Error Unit :=
  match tag with
  | .Uuid actual =>
      if expected = actual then .ok ()
      else .error (.UnexpectedUuid attr_id expected actual)
  | _ => .error (.ExpectedUuid attr_id tag)

/-- `try_initialize_attribute`: set an attribute field if unset, else a
`DuplicateAttribute` error naming the id and the attribute's label.  Returns
the new field value (the Rust version mutates the option in place). -/
def tryInitAttr {T : Type} (field : Option T) (value : T)
    (attribute_id : Nat) (attribute_name : String) : Except Error (Option T) :=
  if field.isSome then
    .error (.DuplicateAttribute attribute_id attribute_name)
  else
    .ok (some value)

/-- `try_initialize`: set an option if unset, else a `DuplicateValue` error. -/
def tryInit {T : Type} (attr_id : Nat) (dest : Option T) (value : T) :
    Except Error (Option T) :=
  if dest.isSome then
    .error (.DuplicateValue attr_id)
  else
    .ok (some value)

/-- `PartialConfiguration` (from_sdp.rs): the all-optional decode-time draft. -/
structure PartialConfiguration where
  primary_language : Option Nat := none
  encoding : Option Nat := none
  service_name : Option String := none
  service_description : Option String := none
  provider_name : Option String := none
  version : Option Nat := none
  hid_device_subclass : Option Nat := none
  hid_country_code : Option Nat := none
  hid_virtual_cable : Option Bool := none
  hid_reconnect_initiate : Option Bool := none
  hid_descriptor_list : List hid.ClassDescriptor := []
  hid_lang_base_id_list : List hid.LanguageBase := []
  hid_battery_power : Option Bool := none
  hid_remote_wake : Option Bool := none
  hid_supervision_timeout : Option Nat := none
  hid_normally_connectable : Option Bool := none
  hid_boot_device : Option Bool := none
  hid_ssr_host_max_latency : Option Nat := none
  hid_ssr_host_min_timeout : Option Nat := none
  deriving DecidableEq

/-- `Default::default()` for the draft. -/
def PartialConfiguration.default : PartialConfiguration := {}

open attribute_id attribute_id.hid in
/-- The list of attribute ids the decoder's dispatch recognizes
(`from_sdp.rs`, the `match id` arms); every other id falls to the
ignore arm. -/
def knownAttributeIds : List Nat :=
  [LANGUAGE_BASE_ATTRIBUTE_ID_LIST, SERVICE_NAME, SERVICE_DESCRIPTION,
   PROVIDER_NAME, BLUETOOTH_PROFILE_DESCRIPTOR_LIST, HID_DEVICE_SUBCLASS,
   HID_COUNTRY_CODE, HID_VIRTUAL_CABLE, HID_RECONNECT_INITIATE,
   HID_DESCRIPTOR_LIST, HID_LANG_BASE_ATTRIBUTE, HID_BATTERY_POWER,
   HID_REMOTE_WAKE, HID_SUPERVISION_TIMEOUT, HID_NORMALLY_CONNECTABLE,
   HID_BOOT_DEVICE, HID_SSR_HOST_MAX_LATENCY, HID_SSR_HOST_MIN_TIMEOUT]

/-- The inner element loop of the `HID_DESCRIPTOR_LIST` arm: scan one
descriptor entry's elements for an id (`UInt8`) and a payload (`Text` or
`RawText`), threading the two option accumulators. -/
def readDescriptorElems (attr_id : Nat) (elems : List Tag)
    (descriptor_type : Option Nat) (descriptor_value : Option (List Nat)) :
    Except Error (Option Nat × Option (List Nat)) :=
  match elems with
  | [] => .ok (descriptor_type, descriptor_value)
  | element :: rest =>
    match element with
    | .UInt8 v =>
        match tryInit attr_id descriptor_type v with
        | .ok dt => readDescriptorElems attr_id rest dt descriptor_value
        | .error _ => .error .DuplicateDescriptorId
    | .Text v =>
        match tryInit attr_id descriptor_value (v.toUTF8.toList.map UInt8.toNat) with
        | .ok dv => readDescriptorElems attr_id rest descriptor_type dv
        | .error _ => .error .DuplicateDescriptorText
    | .RawText v =>
        match tryInit attr_id descriptor_value v with
        | .ok dv => readDescriptorElems attr_id rest descriptor_type dv
        | .error _ => .error .DuplicateDescriptorText
    | _ => .error (.UnexpectedTag element)

/-- The outer entry loop of the `HID_DESCRIPTOR_LIST` arm: each entry must be
a sequence; its scanned (type, value) pair becomes a `ClassDescriptor`,
appended in entry order. -/
def readDescriptors (attr_id : Nat) (entries : List Tag)
    (acc : List hid.ClassDescriptor) : Except Error (List hid.ClassDescriptor) :=
  match entries with
  | [] => .ok acc
  | maybe_descriptor :: rest => do
    let descriptor ← expectSequence attr_id maybe_descriptor
    let (dt, dv) ← readDescriptorElems attr_id descriptor none none
    match dt, dv with
    | some t, some v => readDescriptors attr_id rest (acc ++ [⟨t, v⟩])
    | none, _ => .error (.MissingRecord "descriptor id")
    | some _, none => .error (.MissingRecord "descriptor value")

/-- The entry loop of the `HID_LANG_BASE_ATTRIBUTE` arm: each entry is a
2-element sequence `[language, base]`, appended in entry order. -/
def readLangBases (attr_id : Nat) (entries : List Tag)
    (acc : List hid.LanguageBase) : Except Error (List hid.LanguageBase) :=
  match entries with
  | [] => .ok acc
  | maybe_lang_base :: rest => do
    let lang_base ← expectSequence attr_id maybe_lang_base
    expectLen attr_id lang_base 2
    match lang_base with
    | x0 :: x1 :: _ => do
      let lang ← expectUInt16 attr_id x0
      let base ← expectUInt16 attr_id x1
      readLangBases attr_id rest (acc ++ [⟨lang, base⟩])
    | _ => .error (.MissingRecord "unreachable")

open attribute_id attribute_id.hid in
/-- One iteration of the decoder's `for (id, child) in attributes` loop
(`PartialConfiguration::from_sdp_xml`): dispatch on the 16-bit id, update the
draft or fail; unknown ids leave the draft unchanged. -/
def readAttribute (pc : PartialConfiguration) (id : Nat) (child : Tag) :
    Except Error PartialConfiguration :=
  if id = LANGUAGE_BASE_ATTRIBUTE_ID_LIST then do
    let s ← expectSequence id child
    expectLen id s 3
    match s with
    | x0 :: x1 :: _ => do
      let lang ← expectUInt16 id x0
      let enc ← expectUInt16 id x1
      let pl ← tryInitAttr pc.primary_language lang id "Language Base Attribute ID List"
      let en ← tryInitAttr pc.encoding enc id "Language Base Attribute ID List"
      .ok { pc with primary_language := pl, encoding := en }
    | _ => .error (.MissingRecord "unreachable")
  else if id = SERVICE_NAME then do
    let text ← expectText id child
    let f ← tryInitAttr pc.service_name text id "Service Name"
    .ok { pc with service_name := f }
  else if id = SERVICE_DESCRIPTION then do
    let text ← expectText id child
    let f ← tryInitAttr pc.service_description text id "Service Description"
    .ok { pc with service_description := f }
  else if id = PROVIDER_NAME then do
    let text ← expectText id child
    let f ← tryInitAttr pc.provider_name text id "Provider Name"
    .ok { pc with provider_name := f }
  else if id = BLUETOOTH_PROFILE_DESCRIPTOR_LIST then do
    let seq_1 ← expectSequence id child
    expectLen id seq_1 1
    match seq_1 with
    | y0 :: _ => do
      let seq_2 ← expectSequence id y0
      expectLen id seq_2 2
      match seq_2 with
      | z0 :: z1 :: _ => do
        expectUuid id z0 (uuidFromU16 0x1124)
        let version ← expectUInt16 id z1
        let f ← tryInitAttr pc.version version id "Profile Descriptor List"
        .ok { pc with version := f }
      | _ => .error (.MissingRecord "unreachable")
    | _ => .error (.MissingRecord "unreachable")
  else if id = HID_DEVICE_SUBCLASS then do
    let value ← expectUInt8 id child
    let f ← tryInitAttr pc.hid_device_subclass value id "HID Device Subclass"
    .ok { pc with hid_device_subclass := f }
  else if id = HID_COUNTRY_CODE then do
    let value ← expectUInt8 id child
    let f ← tryInitAttr pc.hid_country_code value id "HID Country Code"
    .ok { pc with hid_country_code := f }
  else if id = HID_VIRTUAL_CABLE then do
    let value ← expectBoolean id child
    let f ← tryInitAttr pc.hid_virtual_cable value id "HID Virtual Cable"
    .ok { pc with hid_virtual_cable := f }
  else if id = HID_RECONNECT_INITIATE then do
    let value ← expectBoolean id child
    let f ← tryInitAttr pc.hid_reconnect_initiate value id "HID Reconnect Initiate"
    .ok { pc with hid_reconnect_initiate := f }
  else if id = HID_DESCRIPTOR_LIST then do
    let maybe_descriptors ← expectSequence id child
    let ds ← readDescriptors id maybe_descriptors pc.hid_descriptor_list
    .ok { pc with hid_descriptor_list := ds }
  else if id = HID_LANG_BASE_ATTRIBUTE then do
    let entries ← expectSequence id child
    let ls ← readLangBases id entries pc.hid_lang_base_id_list
    .ok { pc with hid_lang_base_id_list := ls }
  else if id = HID_BATTERY_POWER then do
    let value ← expectBoolean id child
    let f ← tryInitAttr pc.hid_battery_power value id "HID Battery Power"
    .ok { pc with hid_battery_power := f }
  else if id = HID_REMOTE_WAKE then do
    let value ← expectBoolean id child
    let f ← tryInitAttr pc.hid_remote_wake value id "HID Remote Wake"
    .ok { pc with hid_remote_wake := f }
  else if id = HID_SUPERVISION_TIMEOUT then do
    let value ← expectUInt16 id child
    let f ← tryInitAttr pc.hid_supervision_timeout value id "HID Supervision Timeout"
    .ok { pc with hid_supervision_timeout := f }
  else if id = HID_NORMALLY_CONNECTABLE then do
    let value ← expectBoolean id child
    let f ← tryInitAttr pc.hid_normally_connectable value id "HID Normally Connectable"
    .ok { pc with hid_normally_connectable := f }
  else if id = HID_BOOT_DEVICE then do
    let value ← expectBoolean id child
    let f ← tryInitAttr pc.hid_boot_device value id "HID Boot Device"
    .ok { pc with hid_boot_device := f }
  else if id = HID_SSR_HOST_MAX_LATENCY then do
    let value ← expectUInt16 id child
    let f ← tryInitAttr pc.hid_ssr_host_max_latency value id "HID SSR Host Max Latency"
    .ok { pc with hid_ssr_host_max_latency := f }
  else if id = HID_SSR_HOST_MIN_TIMEOUT then do
    let value ← expectUInt16 id child
    let f ← tryInitAttr pc.hid_ssr_host_min_timeout value id "HID SSR Host Min Timeout"
    .ok { pc with hid_ssr_host_min_timeout := f }
  else
    -- Ignore other attributes.
    .ok pc

/-- The pre-pass of `from_sdp_xml`: convert the record's children to
`(id, value)` pairs, failing at the first non-attribute child (Rust's
`collect` over an iterator of `Result`s short-circuits the same way). -/
def collectAttributes (tags : List Tag) : Except Error (List (Nat × Tag)) :=
  match tags with
  | [] => .ok []
  | tag :: rest =>
    match tag with
    | .Attribute id child => do
      let tl ← collectAttributes rest
      .ok ((id, child) :: tl)
    | _ => .error (.ExpectedAttribute tag)

/-- The main loop of `from_sdp_xml`: fold `readAttribute` over the attribute
pairs in order. -/
def processAttributes (pc : PartialConfiguration) (attrs : List (Nat × Tag)) :
    Except Error PartialConfiguration :=
  match attrs with
  | [] => .ok pc
  | (id, child) :: rest => do
    let pc2 ← readAttribute pc id child
    processAttributes pc2 rest

/-- `PartialConfiguration::from_sdp_xml`, after the external XML parse: the
input must be a `Record`; its children are collected as attributes, then
folded through the dispatch loop starting from the default (empty) draft. -/
def PartialConfiguration.from_sdp_tag (tag : Tag) : Except Error PartialConfiguration := do
  let maybe_attributes ←
    match tag with
    | .Record attrs => Except.ok attrs
    | t => Except.error (Error.ExpectedRecord t)
  let attributes ← collectAttributes maybe_attributes
  processAttributes PartialConfiguration.default attributes

/-- Rust's `Option::ok_or` followed by `?`. -/
def require {T : Type} (o : Option T) (e : Error) : Except Error T :=
  match o with
  | some v => .ok v
  | none => .error e

/-- `TryFrom<PartialConfiguration> for Configuration` (the finalizer), with
the `?` operators evaluated in Rust's textual order. -/
def Configuration.try_from (pc : PartialConfiguration) : Except Error Configuration := do
  -- Parse primary language from base and HID configuration data.
  let iso_code ← require pc.primary_language (.MissingRecord "primary language")
  let first_lang ← require pc.hid_lang_base_id_list.head? (.MissingRecord "HID language")
  let hid_code := first_lang.language
  let encoding ← require pc.encoding (.MissingRecord "encoding")
  let version ← require pc.version (.MissingRecord "version")
  let device_subclass ← require pc.hid_device_subclass (.MissingRecord "device subclass")
  let country_code ← require pc.hid_country_code (.MissingRecord "country code")
  let virtual_cable ← require pc.hid_virtual_cable (.MissingRecord "virtual cable")
  let reconnect_initiate ← require pc.hid_reconnect_initiate (.MissingRecord "reconnect initiate")
  let boot_device ← require pc.hid_boot_device (.MissingRecord "boot device")
  .ok { primary_language := { iso_code, hid_code }
        encoding
        service_name := pc.service_name
        service_description := pc.service_description
        provider_name := pc.provider_name
        version
        hid := { device_subclass
                 country_code
                 virtual_cable
                 reconnect_initiate
                 class_descriptors := pc.hid_descriptor_list
                 additional_languages := pc.hid_lang_base_id_list
                 battery_power := pc.hid_battery_power
                 remote_wake := pc.hid_remote_wake
                 supervision_timeout := pc.hid_supervision_timeout
                 normally_connectable := pc.hid_normally_connectable
                 boot_device
                 ssr_host_max_latency := pc.hid_ssr_host_max_latency
                 ssr_host_min_timeout := pc.hid_ssr_host_min_timeout } }

/-! ## Encoder (`to_sdp.rs`) -/

/-- The conditional `push` of an optional attribute in `to_sdp_tag`
(`if let Some(v) = ... { attributes.push(Tag::attribute(id, v)) }`). -/
def optAttr {T : Type} (o : Option T) (f : T → Tag) (id : Nat) : List Tag :=
  match o with
  | some v => [Tag.Attribute id (f v)]
  | none => []

/-- `Configuration::to_sdp_tag` (to_sdp.rs): build the attribute list in the
source's push order and wrap it in a `Record`.  Tuples, arrays and vectors
passed to `Tag::attribute` / `Tag::sequence` become `Sequence` nodes, `u8`
becomes `UInt8`, `u16` `UInt16`, `bool` `Boolean`, `String` `Text`,
`Tag::bytes` `RawText`, and `Uuid` values `Uuid`, per the external
`sdp_xml` conversions. -/
def Configuration.to_sdp_tag (c : Configuration) : Tag :=
  Tag.Record (
    -- Add service class ID list attribute
    [ Tag.Attribute attribute_id.SERVICE_CLASS_ID_LIST
        (Tag.Sequence [Tag.Uuid HID_SERVICE_UUID]),
      -- Add protocol descriptor list (L2CAP:HIDControl -> HIDP)
      Tag.Attribute attribute_id.PROTOCOL_DESCRIPTOR_LIST
        (Tag.Sequence
          [Tag.Sequence [Tag.UInt16 protocol.L2CAP, Tag.UInt16 psm.HID_CONTROL],
           Tag.Sequence [Tag.UInt16 protocol.HID_PROTOCOL]]),
      -- Add browse group list (optional)
      Tag.Attribute attribute_id.BROWSE_GROUP_LIST
        (Tag.Sequence [Tag.Uuid PUBLIC_BROWSE_GROUP_UUID]),
      -- Add primary base attribute ID
      Tag.Attribute attribute_id.LANGUAGE_BASE_ATTRIBUTE_ID_LIST
        (Tag.Sequence
          [Tag.UInt16 c.primary_language.iso_code,
           Tag.UInt16 c.encoding,
           Tag.UInt16 0x0100]),  -- Base ID: Primary Language
      -- Add additional protocol descriptor lists (L2CAP:HIDInterrupt -> HIDP)
      Tag.Attribute attribute_id.ADDITIONAL_PROTOCOL_DESCRIPTOR_LISTS
        (Tag.Sequence
          [Tag.Sequence
            [Tag.Sequence [Tag.UInt16 protocol.L2CAP, Tag.UInt16 psm.HID_INTERRUPT],
             Tag.Sequence [Tag.UInt16 protocol.HID_PROTOCOL]]]) ]
    -- Add the service name, description and provider name, if given.
    ++ optAttr c.service_name Tag.Text attribute_id.SERVICE_NAME
    ++ optAttr c.service_description Tag.Text attribute_id.SERVICE_DESCRIPTION
    ++ optAttr c.provider_name Tag.Text attribute_id.PROVIDER_NAME
    -- Add profile descriptor list, which contains the HID UUID and the version.
    ++ [ Tag.Attribute attribute_id.BLUETOOTH_PROFILE_DESCRIPTOR_LIST
           (Tag.Sequence
             [Tag.Sequence [Tag.Uuid HID_SERVICE_UUID, Tag.UInt16 c.version]]),
         -- Add the HID parser version (1.1.1).
         Tag.Attribute attribute_id.hid.HID_PARSER_VERSION (Tag.UInt16 0x0111),
         -- Add the HID device subclass.
         Tag.Attribute attribute_id.hid.HID_DEVICE_SUBCLASS
           (Tag.UInt8 c.hid.device_subclass),
         -- Add the country code.
         Tag.Attribute attribute_id.hid.HID_COUNTRY_CODE
           (Tag.UInt8 c.hid.country_code),
         -- Add the virtual cable attribute.
         Tag.Attribute attribute_id.hid.HID_VIRTUAL_CABLE
           (Tag.Boolean c.hid.virtual_cable),
         -- Add the ReconnectInitiate attribute.
         Tag.Attribute attribute_id.hid.HID_RECONNECT_INITIATE
           (Tag.Boolean c.hid.reconnect_initiate),
         -- Add HID descriptor lists.
         Tag.Attribute attribute_id.hid.HID_DESCRIPTOR_LIST
           (Tag.Sequence (c.hid.class_descriptors.map
             (fun d => Tag.Sequence [Tag.UInt8 d.kind, Tag.RawText d.data]))),
         -- Add language base attribute: primary language first (base 0x0100),
         -- then the additional languages in stored order.
         Tag.Attribute attribute_id.hid.HID_LANG_BASE_ATTRIBUTE
           (Tag.Sequence
             (Tag.Sequence [Tag.UInt16 c.primary_language.hid_code, Tag.UInt16 0x0100]
              :: c.hid.additional_languages.map
                   (fun l => Tag.Sequence [Tag.UInt16 l.language, Tag.UInt16 l.base]))) ]
    -- Add battery power, remote wake, supervision timeout and normally
    -- connectable, if specified.
    ++ optAttr c.hid.battery_power Tag.Boolean attribute_id.hid.HID_BATTERY_POWER
    ++ optAttr c.hid.remote_wake Tag.Boolean attribute_id.hid.HID_REMOTE_WAKE
    ++ optAttr c.hid.supervision_timeout Tag.UInt16 attribute_id.hid.HID_SUPERVISION_TIMEOUT
    ++ optAttr c.hid.normally_connectable Tag.Boolean attribute_id.hid.HID_NORMALLY_CONNECTABLE
    -- Specify the boot device attribute.
    ++ [ Tag.Attribute attribute_id.hid.HID_BOOT_DEVICE (Tag.Boolean c.hid.boot_device) ]
    -- Add the SSR host max latency and min timeout, if given.
    ++ optAttr c.hid.ssr_host_max_latency Tag.UInt16 attribute_id.hid.HID_SSR_HOST_MAX_LATENCY
    ++ optAttr c.hid.ssr_host_min_timeout Tag.UInt16 attribute_id.hid.HID_SSR_HOST_MIN_TIMEOUT)

/-- The pairs an `optAttr` block contributes after attribute collection. -/
def optPair {T : Type} (o : Option T) (f : T → Tag) (id : Nat) : List (Nat × Tag) :=
  match o with
  | some v => [(id, f v)]
  | none => []

/-- The draft that decoding an encoded `Configuration` produces: every scalar
captured, the descriptor list as encoded, and the language-base list with the
primary language entry `(hid_code, 0x0100)` first. -/
def expectedDraft (c : Configuration) : PartialConfiguration :=
  { primary_language := some c.primary_language.iso_code
    encoding := some c.encoding
    service_name := c.service_name
    service_description := c.service_description
    provider_name := c.provider_name
    version := some c.version
    hid_device_subclass := some c.hid.device_subclass
    hid_country_code := some c.hid.country_code
    hid_virtual_cable := some c.hid.virtual_cable
    hid_reconnect_initiate := some c.hid.reconnect_initiate
    hid_descriptor_list := c.hid.class_descriptors
    hid_lang_base_id_list := ⟨c.primary_language.hid_code, 0x0100⟩ :: c.hid.additional_languages
    hid_battery_power := c.hid.battery_power
    hid_remote_wake := c.hid.remote_wake
    hid_supervision_timeout := c.hid.supervision_timeout
    hid_normally_connectable := c.hid.normally_connectable
    hid_boot_device := some c.hid.boot_device
    hid_ssr_host_max_latency := c.hid.ssr_host_max_latency
    hid_ssr_host_min_timeout := c.hid.ssr_host_min_timeout }

/-! ## Support definitions for concrete checks -/

/-- The attribute-id projection of a record's children: which attributes an
encoded record carries, in order. -/
def recordAttributeIds (t : Tag) : List Nat :=
  match t with
  | .Record attrs => attrs.filterMap (fun a =>
      match a with
      | .Attribute id _ => some id
      | _ => none)
  | _ => []

/-- The id an optional configuration field contributes to the attribute-id
list: its attribute id when present, nothing when absent. -/
def optIdList {T : Type} (o : Option T) (id : Nat) : List Nat :=
  match o with
  | some _ => [id]
  | none => []

/-- Does the decoder's descriptor-entry loop accept this element kind?
(`UInt8` type elements and `Text`/`RawText` payload elements.) -/
def isDescriptorElemTag (t : Tag) : Bool :=
  match t with
  | .UInt8 _ => true
  | .Text _ => true
  | .RawText _ => true
  | _ => false

/-- A well-formed record carrying every required attribute, with the
descriptor-list entries as a parameter. -/
def baseRecord (entries : List Tag) : Tag :=
  Tag.Record
    [ Tag.Attribute attribute_id.LANGUAGE_BASE_ATTRIBUTE_ID_LIST
        (Tag.Sequence [Tag.UInt16 0x656e, Tag.UInt16 0x006a, Tag.UInt16 0x0100]),
      Tag.Attribute attribute_id.BLUETOOTH_PROFILE_DESCRIPTOR_LIST
        (Tag.Sequence [Tag.Sequence [Tag.Uuid HID_SERVICE_UUID, Tag.UInt16 0x0101]]),
      Tag.Attribute attribute_id.hid.HID_DEVICE_SUBCLASS (Tag.UInt8 0x40),
      Tag.Attribute attribute_id.hid.HID_COUNTRY_CODE (Tag.UInt8 0),
      Tag.Attribute attribute_id.hid.HID_VIRTUAL_CABLE (Tag.Boolean true),
      Tag.Attribute attribute_id.hid.HID_RECONNECT_INITIATE (Tag.Boolean true),
      Tag.Attribute attribute_id.hid.HID_DESCRIPTOR_LIST (Tag.Sequence entries),
      Tag.Attribute attribute_id.hid.HID_LANG_BASE_ATTRIBUTE
        (Tag.Sequence [Tag.Sequence [Tag.UInt16 0x0409, Tag.UInt16 0x0100]]),
      Tag.Attribute attribute_id.hid.HID_BOOT_DEVICE (Tag.Boolean true) ]

/-- A concrete valid configuration used for concrete evaluations. -/
def exampleConfig : Configuration :=
  { primary_language := { iso_code := 0x656e, hid_code := 0x0409 }
    encoding := 0x006a
    service_name := none
    service_description := none
    provider_name := none
    version := 0x0101
    hid := { device_subclass := 0x40
             country_code := 0
             virtual_cable := true
             reconnect_initiate := true
             class_descriptors := [⟨0x22, [5, 1, 9, 6]⟩]
             additional_languages := []
             battery_power := none
             remote_wake := some true
             supervision_timeout := none
             normally_connectable := none
             boot_device := true
             ssr_host_max_latency := none
             ssr_host_min_timeout := none } }

/-- A draft holding exactly the required fields, each as a parameter. -/
def requiredDraft (pl enc ver dsc cc : Option Nat) (vc ri bd : Option Bool)
    (langs : List hid.LanguageBase) : PartialConfiguration :=
  { primary_language := pl
    encoding := enc
    version := ver
    hid_device_subclass := dsc
    hid_country_code := cc
    hid_virtual_cable := vc
    hid_reconnect_initiate := ri
    hid_boot_device := bd
    hid_lang_base_id_list := langs }

/-- A concrete complete draft and its finalized configuration, for witnesses. -/
def examplePartial : PartialConfiguration :=
  requiredDraft (some 0x656e) (some 0x006a) (some 0x0101) (some 0x40) (some 0)
    (some true) (some true) (some true) [⟨0x0409, 0x0100⟩]

def exampleFinal : Configuration :=
  { primary_language := { iso_code := 0x656e, hid_code := 0x0409 }
    encoding := 0x006a
    service_name := none
    service_description := none
    provider_name := none
    version := 0x0101
    hid := { device_subclass := 0x40
             country_code := 0
             virtual_cable := true
             reconnect_initiate := true
             class_descriptors := []
             additional_languages := [⟨0x0409, 0x0100⟩]
             battery_power := none
             remote_wake := none
             supervision_timeout := none
             normally_connectable := none
             boot_device := true
             ssr_host_max_latency := none
             ssr_host_min_timeout := none } }

/-! ## Helper lemmas -/

theorem exc_bind_ok {ε α β : Type} (a : α) (f : α → Except ε β) :
    (Except.ok a >>= f) = f a := rfl

theorem exc_bind_error {ε α β : Type} (e : ε) (f : α → Except ε β) :
    ((Except.error e : Except ε α) >>= f) = Except.error e := rfl

theorem exc_bind_eq_ok {ε α β : Type} {x : Except ε α} {f : α → Except ε β} {b : β}
    (h : (x >>= f) = .ok b) : ∃ a, x = .ok a ∧ f a = .ok b := by
  cases x with
  | ok a => exact ⟨a, rfl, h⟩
  | error e => exact Except.noConfusion h

theorem processAttributes_append (pc : PartialConfiguration)
    (xs ys : List (Nat × Tag)) :
    processAttributes pc (xs ++ ys) =
      (processAttributes pc xs) >>= (fun pc2 => processAttributes pc2 ys) := by
  induction xs generalizing pc with
  | nil => rfl
  | cons p rest ih =>
    obtain ⟨id, child⟩ := p
    show processAttributes pc ((id, child) :: (rest ++ ys)) = _
    rw [processAttributes, processAttributes]
    cases readAttribute pc id child with
    | ok pc2 => simpa [exc_bind_ok] using ih pc2
    | error e => rfl

theorem collectAttributes_append (xs ys : List Tag) :
    collectAttributes (xs ++ ys) =
      (collectAttributes xs) >>= (fun a =>
        (collectAttributes ys) >>= (fun b => .ok (a ++ b))) := by
  induction xs with
  | nil =>
    show collectAttributes ys = _
    cases collectAttributes ys <;> rfl
  | cons t rest ih =>
    cases t with
    | Attribute id child =>
      show collectAttributes (.Attribute id child :: (rest ++ ys)) = _
      rw [collectAttributes, collectAttributes, ih]
      cases collectAttributes rest with
      | ok a =>
        cases collectAttributes ys <;> rfl
      | error e => rfl
    | Boolean b => rfl
    | UInt8 v => rfl
    | UInt16 v => rfl
    | Text v => rfl
    | RawText v => rfl
    | Uuid v => rfl
    | Sequence l => rfl
    | Record l => rfl

theorem collectAttributes_optAttr {T : Type} (o : Option T) (f : T → Tag) (id : Nat) :
    collectAttributes (optAttr o f id) = .ok (optPair o f id) := by
  cases o <;> rfl

theorem from_sdp_tag_record (l : List Tag) :
    PartialConfiguration.from_sdp_tag (.Record l) =
      (collectAttributes l) >>= (fun a => processAttributes PartialConfiguration.default a) := rfl

theorem processAttributes_cons (pc : PartialConfiguration) (id : Nat) (child : Tag)
    (rest : List (Nat × Tag)) :
    processAttributes pc ((id, child) :: rest) =
      (readAttribute pc id child) >>= (fun pc2 => processAttributes pc2 rest) := rfl

/-! Evaluation of one decoder step for each attribute id the encoder emits.
Each is definitional: the id literal selects one dispatch arm. -/

theorem step_ignored_service_class (pc : PartialConfiguration) (v : Tag)
    (rest : List (Nat × Tag)) :
    processAttributes pc ((attribute_id.SERVICE_CLASS_ID_LIST, v) :: rest) =
      processAttributes pc rest := rfl

theorem step_ignored_protocol (pc : PartialConfiguration) (v : Tag)
    (rest : List (Nat × Tag)) :
    processAttributes pc ((attribute_id.PROTOCOL_DESCRIPTOR_LIST, v) :: rest) =
      processAttributes pc rest := rfl

theorem step_ignored_browse_group (pc : PartialConfiguration) (v : Tag)
    (rest : List (Nat × Tag)) :
    processAttributes pc ((attribute_id.BROWSE_GROUP_LIST, v) :: rest) =
      processAttributes pc rest := rfl

theorem step_ignored_additional_protocol (pc : PartialConfiguration) (v : Tag)
    (rest : List (Nat × Tag)) :
    processAttributes pc ((attribute_id.ADDITIONAL_PROTOCOL_DESCRIPTOR_LISTS, v) :: rest) =
      processAttributes pc rest := rfl

theorem step_ignored_hid_parser_version (pc : PartialConfiguration) (v : Tag)
    (rest : List (Nat × Tag)) :
    processAttributes pc ((attribute_id.hid.HID_PARSER_VERSION, v) :: rest) =
      processAttributes pc rest := rfl

theorem step_lang_base_id_list (pc : PartialConfiguration) (iso enc base : Nat)
    (rest : List (Nat × Tag)) (h1 : pc.primary_language = none) (h2 : pc.encoding = none) :
    processAttributes pc ((attribute_id.LANGUAGE_BASE_ATTRIBUTE_ID_LIST,
        Tag.Sequence [Tag.UInt16 iso, Tag.UInt16 enc, Tag.UInt16 base]) :: rest) =
      processAttributes { pc with primary_language := some iso, encoding := some enc } rest := by
  obtain ⟨f1, f2, f3, f4, f5, f6, f7, f8, f9, f10, f11, f12, f13, f14, f15, f16, f17, f18, f19⟩ := pc
  cases h1; cases h2; rfl

theorem step_profile_descriptor_list (pc : PartialConfiguration) (ver : Nat)
    (rest : List (Nat × Tag)) (h : pc.version = none) :
    processAttributes pc ((attribute_id.BLUETOOTH_PROFILE_DESCRIPTOR_LIST,
        Tag.Sequence [Tag.Sequence [Tag.Uuid HID_SERVICE_UUID, Tag.UInt16 ver]]) :: rest) =
      processAttributes { pc with version := some ver } rest := by
  obtain ⟨f1, f2, f3, f4, f5, f6, f7, f8, f9, f10, f11, f12, f13, f14, f15, f16, f17, f18, f19⟩ := pc
  cases h; rfl

theorem step_device_subclass (pc : PartialConfiguration) (v : Nat)
    (rest : List (Nat × Tag)) (h : pc.hid_device_subclass = none) :
    processAttributes pc ((attribute_id.hid.HID_DEVICE_SUBCLASS, Tag.UInt8 v) :: rest) =
      processAttributes { pc with hid_device_subclass := some v } rest := by
  obtain ⟨f1, f2, f3, f4, f5, f6, f7, f8, f9, f10, f11, f12, f13, f14, f15, f16, f17, f18, f19⟩ := pc
  cases h; rfl

theorem step_country_code (pc : PartialConfiguration) (v : Nat)
    (rest : List (Nat × Tag)) (h : pc.hid_country_code = none) :
    processAttributes pc ((attribute_id.hid.HID_COUNTRY_CODE, Tag.UInt8 v) :: rest) =
      processAttributes { pc with hid_country_code := some v } rest := by
  obtain ⟨f1, f2, f3, f4, f5, f6, f7, f8, f9, f10, f11, f12, f13, f14, f15, f16, f17, f18, f19⟩ := pc
  cases h; rfl

theorem step_virtual_cable (pc : PartialConfiguration) (v : Bool)
    (rest : List (Nat × Tag)) (h : pc.hid_virtual_cable = none) :
    processAttributes pc ((attribute_id.hid.HID_VIRTUAL_CABLE, Tag.Boolean v) :: rest) =
      processAttributes { pc with hid_virtual_cable := some v } rest := by
  obtain ⟨f1, f2, f3, f4, f5, f6, f7, f8, f9, f10, f11, f12, f13, f14, f15, f16, f17, f18, f19⟩ := pc
  cases h; rfl

theorem step_reconnect_initiate (pc : PartialConfiguration) (v : Bool)
    (rest : List (Nat × Tag)) (h : pc.hid_reconnect_initiate = none) :
    processAttributes pc ((attribute_id.hid.HID_RECONNECT_INITIATE, Tag.Boolean v) :: rest) =
      processAttributes { pc with hid_reconnect_initiate := some v } rest := by
  obtain ⟨f1, f2, f3, f4, f5, f6, f7, f8, f9, f10, f11, f12, f13, f14, f15, f16, f17, f18, f19⟩ := pc
  cases h; rfl

theorem step_boot_device (pc : PartialConfiguration) (v : Bool)
    (rest : List (Nat × Tag)) (h : pc.hid_boot_device = none) :
    processAttributes pc ((attribute_id.hid.HID_BOOT_DEVICE, Tag.Boolean v) :: rest) =
      processAttributes { pc with hid_boot_device := some v } rest := by
  obtain ⟨f1, f2, f3, f4, f5, f6, f7, f8, f9, f10, f11, f12, f13, f14, f15, f16, f17, f18, f19⟩ := pc
  cases h; rfl

theorem readDescriptors_map (A : Nat) (cds : List hid.ClassDescriptor)
    (acc : List hid.ClassDescriptor) :
    readDescriptors A
      (cds.map (fun d => Tag.Sequence [Tag.UInt8 d.kind, Tag.RawText d.data])) acc =
      .ok (acc ++ cds) := by
  induction cds generalizing acc with
  | nil => simp [readDescriptors]
  | cons d rest ih =>
    show readDescriptors A (Tag.Sequence [Tag.UInt8 d.kind, Tag.RawText d.data] :: _) acc = _
    rw [readDescriptors]
    show readDescriptors A _ (acc ++ [⟨d.kind, d.data⟩]) = _
    rw [ih]
    simp

theorem readLangBases_map (A : Nat) (langs : List hid.LanguageBase)
    (acc : List hid.LanguageBase) :
    readLangBases A
      (langs.map (fun l => Tag.Sequence [Tag.UInt16 l.language, Tag.UInt16 l.base])) acc =
      .ok (acc ++ langs) := by
  induction langs generalizing acc with
  | nil => simp [readLangBases]
  | cons l rest ih =>
    have h1 : readLangBases A
        ((l :: rest).map (fun l => Tag.Sequence [Tag.UInt16 l.language, Tag.UInt16 l.base])) acc =
        readLangBases A
          (rest.map (fun l => Tag.Sequence [Tag.UInt16 l.language, Tag.UInt16 l.base]))
          (acc ++ [⟨l.language, l.base⟩]) := rfl
    rw [h1, ih]
    simp only [List.append_assoc, List.singleton_append]

theorem step_descriptor_list (pc : PartialConfiguration) (cds : List hid.ClassDescriptor)
    (rest : List (Nat × Tag)) :
    processAttributes pc ((attribute_id.hid.HID_DESCRIPTOR_LIST,
        Tag.Sequence (cds.map
          (fun d => Tag.Sequence [Tag.UInt8 d.kind, Tag.RawText d.data]))) :: rest) =
      processAttributes { pc with hid_descriptor_list := pc.hid_descriptor_list ++ cds } rest := by
  rw [processAttributes_cons]
  show (readDescriptors _ _ pc.hid_descriptor_list >>= _) >>= _ = _
  rw [readDescriptors_map]
  rfl

theorem step_lang_base_list (pc : PartialConfiguration) (a b : Nat)
    (langs : List hid.LanguageBase) (rest : List (Nat × Tag)) :
    processAttributes pc ((attribute_id.hid.HID_LANG_BASE_ATTRIBUTE,
        Tag.Sequence (Tag.Sequence [Tag.UInt16 a, Tag.UInt16 b]
          :: langs.map (fun l => Tag.Sequence [Tag.UInt16 l.language, Tag.UInt16 l.base]))) :: rest) =
      processAttributes
        { pc with hid_lang_base_id_list := pc.hid_lang_base_id_list ++ ⟨a, b⟩ :: langs } rest := by
  rw [processAttributes_cons]
  show (((readLangBases _ _ (pc.hid_lang_base_id_list ++ [⟨a, b⟩])) >>= _) >>= _) = _
  rw [readLangBases_map]
  simp only [List.append_assoc, List.singleton_append]
  rfl

theorem process_opt_service_name (pc : PartialConfiguration) (o : Option String)
    (rest : List (Nat × Tag)) (h : pc.service_name = none) :
    processAttributes pc (optPair o Tag.Text attribute_id.SERVICE_NAME ++ rest) =
      processAttributes { pc with service_name := o } rest := by
  obtain ⟨f1, f2, f3, f4, f5, f6, f7, f8, f9, f10, f11, f12, f13, f14, f15, f16, f17, f18, f19⟩ := pc
  cases h
  cases o with
  | none => rfl
  | some v => rfl

theorem process_opt_service_description (pc : PartialConfiguration) (o : Option String)
    (rest : List (Nat × Tag)) (h : pc.service_description = none) :
    processAttributes pc (optPair o Tag.Text attribute_id.SERVICE_DESCRIPTION ++ rest) =
      processAttributes { pc with service_description := o } rest := by
  obtain ⟨f1, f2, f3, f4, f5, f6, f7, f8, f9, f10, f11, f12, f13, f14, f15, f16, f17, f18, f19⟩ := pc
  cases h
  cases o with
  | none => rfl
  | some v => rfl

theorem process_opt_provider_name (pc : PartialConfiguration) (o : Option String)
    (rest : List (Nat × Tag)) (h : pc.provider_name = none) :
    processAttributes pc (optPair o Tag.Text attribute_id.PROVIDER_NAME ++ rest) =
      processAttributes { pc with provider_name := o } rest := by
  obtain ⟨f1, f2, f3, f4, f5, f6, f7, f8, f9, f10, f11, f12, f13, f14, f15, f16, f17, f18, f19⟩ := pc
  cases h
  cases o with
  | none => rfl
  | some v => rfl

theorem process_opt_hid_battery_power (pc : PartialConfiguration) (o : Option Bool)
    (rest : List (Nat × Tag)) (h : pc.hid_battery_power = none) :
    processAttributes pc (optPair o Tag.Boolean attribute_id.hid.HID_BATTERY_POWER ++ rest) =
      processAttributes { pc with hid_battery_power := o } rest := by
  obtain ⟨f1, f2, f3, f4, f5, f6, f7, f8, f9, f10, f11, f12, f13, f14, f15, f16, f17, f18, f19⟩ := pc
  cases h
  cases o with
  | none => rfl
  | some v => rfl

theorem process_opt_hid_remote_wake (pc : PartialConfiguration) (o : Option Bool)
    (rest : List (Nat × Tag)) (h : pc.hid_remote_wake = none) :
    processAttributes pc (optPair o Tag.Boolean attribute_id.hid.HID_REMOTE_WAKE ++ rest) =
      processAttributes { pc with hid_remote_wake := o } rest := by
  obtain ⟨f1, f2, f3, f4, f5, f6, f7, f8, f9, f10, f11, f12, f13, f14, f15, f16, f17, f18, f19⟩ := pc
  cases h
  cases o with
  | none => rfl
  | some v => rfl

theorem process_opt_hid_supervision_timeout (pc : PartialConfiguration) (o : Option Nat)
    (rest : List (Nat × Tag)) (h : pc.hid_supervision_timeout = none) :
    processAttributes pc (optPair o Tag.UInt16 attribute_id.hid.HID_SUPERVISION_TIMEOUT ++ rest) =
      processAttributes { pc with hid_supervision_timeout := o } rest := by
  obtain ⟨f1, f2, f3, f4, f5, f6, f7, f8, f9, f10, f11, f12, f13, f14, f15, f16, f17, f18, f19⟩ := pc
  cases h
  cases o with
  | none => rfl
  | some v => rfl

theorem process_opt_hid_normally_connectable (pc : PartialConfiguration) (o : Option Bool)
    (rest : List (Nat × Tag)) (h : pc.hid_normally_connectable = none) :
    processAttributes pc (optPair o Tag.Boolean attribute_id.hid.HID_NORMALLY_CONNECTABLE ++ rest) =
      processAttributes { pc with hid_normally_connectable := o } rest := by
  obtain ⟨f1, f2, f3, f4, f5, f6, f7, f8, f9, f10, f11, f12, f13, f14, f15, f16, f17, f18, f19⟩ := pc
  cases h
  cases o with
  | none => rfl
  | some v => rfl

theorem process_opt_hid_ssr_host_max_latency (pc : PartialConfiguration) (o : Option Nat)
    (rest : List (Nat × Tag)) (h : pc.hid_ssr_host_max_latency = none) :
    processAttributes pc (optPair o Tag.UInt16 attribute_id.hid.HID_SSR_HOST_MAX_LATENCY ++ rest) =
      processAttributes { pc with hid_ssr_host_max_latency := o } rest := by
  obtain ⟨f1, f2, f3, f4, f5, f6, f7, f8, f9, f10, f11, f12, f13, f14, f15, f16, f17, f18, f19⟩ := pc
  cases h
  cases o with
  | none => rfl
  | some v => rfl

theorem process_opt_hid_ssr_host_min_timeout (pc : PartialConfiguration) (o : Option Nat)
    (rest : List (Nat × Tag)) (h : pc.hid_ssr_host_min_timeout = none) :
    processAttributes pc (optPair o Tag.UInt16 attribute_id.hid.HID_SSR_HOST_MIN_TIMEOUT ++ rest) =
      processAttributes { pc with hid_ssr_host_min_timeout := o } rest := by
  obtain ⟨f1, f2, f3, f4, f5, f6, f7, f8, f9, f10, f11, f12, f13, f14, f15, f16, f17, f18, f19⟩ := pc
  cases h
  cases o with
  | none => rfl
  | some v => rfl

theorem readAttribute_unknown (pc : PartialConfiguration) (v : Tag) {id : Nat}
    (h : id ∉ knownAttributeIds) : readAttribute pc id v = .ok pc := by
  simp only [knownAttributeIds, List.mem_cons, List.not_mem_nil, or_false, not_or] at h
  obtain ⟨h1, h2, h3, h4, h5, h6, h7, h8, h9, h10, h11, h12, h13, h14, h15, h16, h17, h18⟩ := h
  rw [readAttribute]
  simp only [h1, h2, h3, h4, h5, h6, h7, h8, h9, h10, h11, h12, h13, h14, h15, h16, h17, h18,
    if_false]

theorem processAttributes_skip_unknown (b : List (Nat × Tag)) {id : Nat}
    (h : id ∉ knownAttributeIds) (v : Tag) (a : List (Nat × Tag))
    (pc : PartialConfiguration) :
    processAttributes pc (a ++ (id, v) :: b) = processAttributes pc (a ++ b) := by
  induction a generalizing pc with
  | nil =>
    simp only [List.nil_append]
    rw [processAttributes_cons, readAttribute_unknown pc v h, exc_bind_ok]
  | cons p rest ih =>
    obtain ⟨pid, pchild⟩ := p
    simp only [List.cons_append]
    rw [processAttributes_cons, processAttributes_cons]
    cases readAttribute pc pid pchild with
    | ok pc2 => simpa [exc_bind_ok] using ih pc2
    | error e => rfl

/-! Evaluation of `readAttribute` itself at each attribute id the encoder
emits, conditional on the target draft field being unset. -/

theorem readAttr_ignored_service_class (pc : PartialConfiguration) (v : Tag) :
    readAttribute pc attribute_id.SERVICE_CLASS_ID_LIST v = .ok pc := rfl

theorem readAttr_ignored_protocol (pc : PartialConfiguration) (v : Tag) :
    readAttribute pc attribute_id.PROTOCOL_DESCRIPTOR_LIST v = .ok pc := rfl

theorem readAttr_ignored_browse_group (pc : PartialConfiguration) (v : Tag) :
    readAttribute pc attribute_id.BROWSE_GROUP_LIST v = .ok pc := rfl

theorem readAttr_ignored_additional_protocol (pc : PartialConfiguration) (v : Tag) :
    readAttribute pc attribute_id.ADDITIONAL_PROTOCOL_DESCRIPTOR_LISTS v = .ok pc := rfl

theorem readAttr_ignored_hid_parser_version (pc : PartialConfiguration) (v : Tag) :
    readAttribute pc attribute_id.hid.HID_PARSER_VERSION v = .ok pc := rfl

theorem readAttr_lang_base_id_list (pc : PartialConfiguration) (iso enc base : Nat)
    (h1 : pc.primary_language = none) (h2 : pc.encoding = none) :
    readAttribute pc attribute_id.LANGUAGE_BASE_ATTRIBUTE_ID_LIST
        (Tag.Sequence [Tag.UInt16 iso, Tag.UInt16 enc, Tag.UInt16 base]) =
      .ok { pc with primary_language := some iso, encoding := some enc } := by
  obtain ⟨f1, f2, f3, f4, f5, f6, f7, f8, f9, f10, f11, f12, f13, f14, f15, f16, f17, f18, f19⟩ := pc
  cases h1; cases h2; rfl

theorem readAttr_profile_descriptor_list (pc : PartialConfiguration) (ver : Nat)
    (h : pc.version = none) :
    readAttribute pc attribute_id.BLUETOOTH_PROFILE_DESCRIPTOR_LIST
        (Tag.Sequence [Tag.Sequence [Tag.Uuid HID_SERVICE_UUID, Tag.UInt16 ver]]) =
      .ok { pc with version := some ver } := by
  obtain ⟨f1, f2, f3, f4, f5, f6, f7, f8, f9, f10, f11, f12, f13, f14, f15, f16, f17, f18, f19⟩ := pc
  cases h; rfl

theorem readAttr_device_subclass (pc : PartialConfiguration) (v : Nat)
    (h : pc.hid_device_subclass = none) :
    readAttribute pc attribute_id.hid.HID_DEVICE_SUBCLASS (Tag.UInt8 v) =
      .ok { pc with hid_device_subclass := some v } := by
  obtain ⟨f1, f2, f3, f4, f5, f6, f7, f8, f9, f10, f11, f12, f13, f14, f15, f16, f17, f18, f19⟩ := pc
  cases h; rfl

theorem readAttr_country_code (pc : PartialConfiguration) (v : Nat)
    (h : pc.hid_country_code = none) :
    readAttribute pc attribute_id.hid.HID_COUNTRY_CODE (Tag.UInt8 v) =
      .ok { pc with hid_country_code := some v } := by
  obtain ⟨f1, f2, f3, f4, f5, f6, f7, f8, f9, f10, f11, f12, f13, f14, f15, f16, f17, f18, f19⟩ := pc
  cases h; rfl

theorem readAttr_virtual_cable (pc : PartialConfiguration) (v : Bool)
    (h : pc.hid_virtual_cable = none) :
    readAttribute pc attribute_id.hid.HID_VIRTUAL_CABLE (Tag.Boolean v) =
      .ok { pc with hid_virtual_cable := some v } := by
  obtain ⟨f1, f2, f3, f4, f5, f6, f7, f8, f9, f10, f11, f12, f13, f14, f15, f16, f17, f18, f19⟩ := pc
  cases h; rfl

theorem readAttr_reconnect_initiate (pc : PartialConfiguration) (v : Bool)
    (h : pc.hid_reconnect_initiate = none) :
    readAttribute pc attribute_id.hid.HID_RECONNECT_INITIATE (Tag.Boolean v) =
      .ok { pc with hid_reconnect_initiate := some v } := by
  obtain ⟨f1, f2, f3, f4, f5, f6, f7, f8, f9, f10, f11, f12, f13, f14, f15, f16, f17, f18, f19⟩ := pc
  cases h; rfl

theorem readAttr_boot_device (pc : PartialConfiguration) (v : Bool)
    (h : pc.hid_boot_device = none) :
    readAttribute pc attribute_id.hid.HID_BOOT_DEVICE (Tag.Boolean v) =
      .ok { pc with hid_boot_device := some v } := by
  obtain ⟨f1, f2, f3, f4, f5, f6, f7, f8, f9, f10, f11, f12, f13, f14, f15, f16, f17, f18, f19⟩ := pc
  cases h; rfl

theorem readAttr_descriptor_list (pc : PartialConfiguration)
    (cds : List hid.ClassDescriptor) :
    readAttribute pc attribute_id.hid.HID_DESCRIPTOR_LIST
        (Tag.Sequence (cds.map
          (fun d => Tag.Sequence [Tag.UInt8 d.kind, Tag.RawText d.data]))) =
      .ok { pc with hid_descriptor_list := pc.hid_descriptor_list ++ cds } := by
  have h1 : readAttribute pc attribute_id.hid.HID_DESCRIPTOR_LIST
      (Tag.Sequence (cds.map
        (fun d => Tag.Sequence [Tag.UInt8 d.kind, Tag.RawText d.data]))) =
      (readDescriptors attribute_id.hid.HID_DESCRIPTOR_LIST
        (cds.map (fun d => Tag.Sequence [Tag.UInt8 d.kind, Tag.RawText d.data]))
        pc.hid_descriptor_list) >>=
        (fun ds => .ok { pc with hid_descriptor_list := ds }) := rfl
  rw [h1, readDescriptors_map, exc_bind_ok]

theorem readAttr_lang_base_list (pc : PartialConfiguration) (a b : Nat)
    (langs : List hid.LanguageBase) :
    readAttribute pc attribute_id.hid.HID_LANG_BASE_ATTRIBUTE
        (Tag.Sequence (Tag.Sequence [Tag.UInt16 a, Tag.UInt16 b]
          :: langs.map (fun l => Tag.Sequence [Tag.UInt16 l.language, Tag.UInt16 l.base]))) =
      .ok { pc with
              hid_lang_base_id_list := pc.hid_lang_base_id_list ++ ⟨a, b⟩ :: langs } := by
  have h1 : readAttribute pc attribute_id.hid.HID_LANG_BASE_ATTRIBUTE
      (Tag.Sequence (Tag.Sequence [Tag.UInt16 a, Tag.UInt16 b]
        :: langs.map (fun l => Tag.Sequence [Tag.UInt16 l.language, Tag.UInt16 l.base]))) =
      (readLangBases attribute_id.hid.HID_LANG_BASE_ATTRIBUTE
        (langs.map (fun l => Tag.Sequence [Tag.UInt16 l.language, Tag.UInt16 l.base]))
        (pc.hid_lang_base_id_list ++ [⟨a, b⟩])) >>=
        (fun ls => .ok { pc with hid_lang_base_id_list := ls }) := rfl
  rw [h1, readLangBases_map, exc_bind_ok]
  simp only [List.append_assoc, List.singleton_append]


theorem process_opt_hid_ssr_host_min_timeout_last (pc : PartialConfiguration)
    (o : Option Nat) (h : pc.hid_ssr_host_min_timeout = none) :
    processAttributes pc (optPair o Tag.UInt16 attribute_id.hid.HID_SSR_HOST_MIN_TIMEOUT) =
      .ok { pc with hid_ssr_host_min_timeout := o } := by
  obtain ⟨f1, f2, f3, f4, f5, f6, f7, f8, f9, f10, f11, f12, f13, f14, f15, f16, f17, f18, f19⟩ := pc
  cases h
  cases o with
  | none => rfl
  | some v => rfl

theorem from_sdp_to_sdp (c : Configuration) :
    PartialConfiguration.from_sdp_tag c.to_sdp_tag = .ok (expectedDraft c) := by
  rw [Configuration.to_sdp_tag, from_sdp_tag_record]
  simp only [collectAttributes_append]
  simp only [collectAttributes_optAttr]
  simp only [collectAttributes]
  simp only [exc_bind_ok]
  simp only [List.append_eq, List.nil_append, List.cons_append, List.append_assoc]
  simp only [PartialConfiguration.default, readAttr_ignored_service_class, readAttr_ignored_protocol,
    readAttr_ignored_browse_group, readAttr_ignored_additional_protocol,
    readAttr_ignored_hid_parser_version, readAttr_lang_base_id_list,
    readAttr_profile_descriptor_list, readAttr_device_subclass, readAttr_country_code,
    readAttr_virtual_cable, readAttr_reconnect_initiate, readAttr_boot_device,
    readAttr_descriptor_list, readAttr_lang_base_list, exc_bind_ok,
    processAttributes, process_opt_service_name,
    process_opt_service_description, process_opt_provider_name,
    process_opt_hid_battery_power, process_opt_hid_remote_wake,
    process_opt_hid_supervision_timeout, process_opt_hid_normally_connectable,
    process_opt_hid_ssr_host_max_latency, process_opt_hid_ssr_host_min_timeout,
    process_opt_hid_ssr_host_min_timeout_last,
    List.nil_append, List.append_assoc, List.cons_append]
  rfl


/-! ## Claims -/

/-- Claim C1 (counterexample): encoding, decoding and finalizing does not
reproduce every field of the configuration — at `exampleConfig` (which has
`additional_languages = []`) the round-tripped `hid.additional_languages`
differs from the original, so the round trip is not the identity on that
field. -/
theorem claim_C1_counterexample :
    ((PartialConfiguration.from_sdp_tag exampleConfig.to_sdp_tag >>=
        Configuration.try_from).toOption.map
      (fun c => c.hid.additional_languages)) ≠
      some exampleConfig.hid.additional_languages := by
  decide

/-- Claim C1 (amended): for every valid `Configuration` `c`, encoding with
`to_sdp_tag`, decoding the record and finalizing succeeds and reproduces every
field of `c` — primary_language (iso and hid code), encoding, the three
optional strings, version, and every `hid` field including
`class_descriptors` — except `hid.additional_languages`, which comes back
with the primary-language entry `(hid_code, 0x0100)` prepended to the
original list. -/
theorem claim_C1_roundtrip :
    ∀ c : Configuration,
    (PartialConfiguration.from_sdp_tag c.to_sdp_tag >>= Configuration.try_from) =
      .ok { c with hid := { c.hid with additional_languages :=
              ⟨c.primary_language.hid_code, 0x0100⟩ :: c.hid.additional_languages } } := by
  intro c
  rw [from_sdp_to_sdp, exc_bind_ok]
  rfl

theorem filterMap_optAttr {T : Type} (o : Option T) (f : T → Tag) (id : Nat) :
    (optAttr o f id).filterMap (fun a =>
        match a with
        | .Attribute i _ => some i
        | _ => none) = optIdList o id := by
  cases o <;> rfl

/-- Claim C2: the encoder's record carries attribute ids in exactly the fixed
protocol order — the five fixed head attributes, then service name /
description / provider name each exactly when present, then the profile
descriptor list, parser version, subclass, country code, virtual cable,
reconnect initiate, descriptor list and language-base list, then battery
power / remote wake / supervision timeout / normally connectable each
exactly when present, then boot device, then the two SSR attributes each
exactly when present — and an absent optional field contributes no
attribute at all. -/
theorem claim_C2_attribute_order (c : Configuration) :
    recordAttributeIds c.to_sdp_tag =
      [attribute_id.SERVICE_CLASS_ID_LIST, attribute_id.PROTOCOL_DESCRIPTOR_LIST,
       attribute_id.BROWSE_GROUP_LIST, attribute_id.LANGUAGE_BASE_ATTRIBUTE_ID_LIST,
       attribute_id.ADDITIONAL_PROTOCOL_DESCRIPTOR_LISTS]
      ++ optIdList c.service_name attribute_id.SERVICE_NAME
      ++ optIdList c.service_description attribute_id.SERVICE_DESCRIPTION
      ++ optIdList c.provider_name attribute_id.PROVIDER_NAME
      ++ [attribute_id.BLUETOOTH_PROFILE_DESCRIPTOR_LIST,
          attribute_id.hid.HID_PARSER_VERSION, attribute_id.hid.HID_DEVICE_SUBCLASS,
          attribute_id.hid.HID_COUNTRY_CODE, attribute_id.hid.HID_VIRTUAL_CABLE,
          attribute_id.hid.HID_RECONNECT_INITIATE, attribute_id.hid.HID_DESCRIPTOR_LIST,
          attribute_id.hid.HID_LANG_BASE_ATTRIBUTE]
      ++ optIdList c.hid.battery_power attribute_id.hid.HID_BATTERY_POWER
      ++ optIdList c.hid.remote_wake attribute_id.hid.HID_REMOTE_WAKE
      ++ optIdList c.hid.supervision_timeout attribute_id.hid.HID_SUPERVISION_TIMEOUT
      ++ optIdList c.hid.normally_connectable attribute_id.hid.HID_NORMALLY_CONNECTABLE
      ++ [attribute_id.hid.HID_BOOT_DEVICE]
      ++ optIdList c.hid.ssr_host_max_latency attribute_id.hid.HID_SSR_HOST_MAX_LATENCY
      ++ optIdList c.hid.ssr_host_min_timeout attribute_id.hid.HID_SSR_HOST_MIN_TIMEOUT := by
  rw [Configuration.to_sdp_tag, recordAttributeIds]
  simp only [List.filterMap_append, filterMap_optAttr, List.filterMap_cons, List.filterMap_nil,
    List.append_assoc, List.cons_append, List.nil_append]

/-- Claim C3 (counterexample): a decoded-and-finalized configuration can hold
a `ClassDescriptor` whose kind is 0x55, which is neither REPORT (0x22) nor
PHYSICAL (0x23) — the decoder never restricts the kind byte. -/
theorem claim_C3_counterexample :
    (((PartialConfiguration.from_sdp_tag
          (baseRecord [Tag.Sequence [Tag.UInt8 0x55, Tag.RawText []]]) >>=
        Configuration.try_from).toOption.map
      (fun c => c.hid.class_descriptors.map (fun d => d.kind))) = some [0x55]) ∧
    (0x55 : Nat) ∉ [hid.descriptor_type.REPORT, hid.descriptor_type.PHYSICAL] := by
  constructor
  · rfl
  · decide

/-- Claim C3 (amended): a `ClassDescriptor` held in a decoded-and-finalized
configuration carries whatever 8-bit type value the wire entry held — any
`k` decodes to kind `k`; membership in {REPORT = 0x22, PHYSICAL = 0x23} is
not enforced. -/
theorem claim_C3_kind_unrestricted :
    ∀ (k : Nat) (data : List Nat),
    ((PartialConfiguration.from_sdp_tag
        (baseRecord [Tag.Sequence [Tag.UInt8 k, Tag.RawText data]]) >>=
      Configuration.try_from).toOption.map
        (fun c => c.hid.class_descriptors)) = some [⟨k, data⟩] := by
  intro k data
  rfl

/-- Claim C4: for every known scalar attribute id, a record carrying two
attributes with that id fails decode with a duplicate-attribute error
carrying the id and its human-readable label, even when the two values are
equal (the payloads below are arbitrary, so equal payloads are included);
and the first occurrence's value is the one stored into the draft (last
conjunct: a single occurrence stores its value). -/
theorem claim_C4_duplicate_scalar :
    ∀ (s1 s2 : String) (b1 b2 : Bool) (n1 n2 a b x a2 b2n x2 : Nat),
    (PartialConfiguration.from_sdp_tag (.Record
        [.Attribute attribute_id.LANGUAGE_BASE_ATTRIBUTE_ID_LIST
           (.Sequence [.UInt16 a, .UInt16 b, .UInt16 x]),
         .Attribute attribute_id.LANGUAGE_BASE_ATTRIBUTE_ID_LIST
           (.Sequence [.UInt16 a2, .UInt16 b2n, .UInt16 x2])]) =
      .error (.DuplicateAttribute attribute_id.LANGUAGE_BASE_ATTRIBUTE_ID_LIST
        "Language Base Attribute ID List")) ∧
    (PartialConfiguration.from_sdp_tag (.Record
        [.Attribute attribute_id.SERVICE_NAME (.Text s1),
         .Attribute attribute_id.SERVICE_NAME (.Text s2)]) =
      .error (.DuplicateAttribute attribute_id.SERVICE_NAME "Service Name")) ∧
    (PartialConfiguration.from_sdp_tag (.Record
        [.Attribute attribute_id.SERVICE_DESCRIPTION (.Text s1),
         .Attribute attribute_id.SERVICE_DESCRIPTION (.Text s2)]) =
      .error (.DuplicateAttribute attribute_id.SERVICE_DESCRIPTION "Service Description")) ∧
    (PartialConfiguration.from_sdp_tag (.Record
        [.Attribute attribute_id.PROVIDER_NAME (.Text s1),
         .Attribute attribute_id.PROVIDER_NAME (.Text s2)]) =
      .error (.DuplicateAttribute attribute_id.PROVIDER_NAME "Provider Name")) ∧
    (PartialConfiguration.from_sdp_tag (.Record
        [.Attribute attribute_id.BLUETOOTH_PROFILE_DESCRIPTOR_LIST
           (.Sequence [.Sequence [.Uuid HID_SERVICE_UUID, .UInt16 n1]]),
         .Attribute attribute_id.BLUETOOTH_PROFILE_DESCRIPTOR_LIST
           (.Sequence [.Sequence [.Uuid HID_SERVICE_UUID, .UInt16 n2]])]) =
      .error (.DuplicateAttribute attribute_id.BLUETOOTH_PROFILE_DESCRIPTOR_LIST
        "Profile Descriptor List")) ∧
    (PartialConfiguration.from_sdp_tag (.Record
        [.Attribute attribute_id.hid.HID_DEVICE_SUBCLASS (.UInt8 n1),
         .Attribute attribute_id.hid.HID_DEVICE_SUBCLASS (.UInt8 n2)]) =
      .error (.DuplicateAttribute attribute_id.hid.HID_DEVICE_SUBCLASS
        "HID Device Subclass")) ∧
    (PartialConfiguration.from_sdp_tag (.Record
        [.Attribute attribute_id.hid.HID_COUNTRY_CODE (.UInt8 n1),
         .Attribute attribute_id.hid.HID_COUNTRY_CODE (.UInt8 n2)]) =
      .error (.DuplicateAttribute attribute_id.hid.HID_COUNTRY_CODE "HID Country Code")) ∧
    (PartialConfiguration.from_sdp_tag (.Record
        [.Attribute attribute_id.hid.HID_VIRTUAL_CABLE (.Boolean b1),
         .Attribute attribute_id.hid.HID_VIRTUAL_CABLE (.Boolean b2)]) =
      .error (.DuplicateAttribute attribute_id.hid.HID_VIRTUAL_CABLE "HID Virtual Cable")) ∧
    (PartialConfiguration.from_sdp_tag (.Record
        [.Attribute attribute_id.hid.HID_RECONNECT_INITIATE (.Boolean b1),
         .Attribute attribute_id.hid.HID_RECONNECT_INITIATE (.Boolean b2)]) =
      .error (.DuplicateAttribute attribute_id.hid.HID_RECONNECT_INITIATE
        "HID Reconnect Initiate")) ∧
    (PartialConfiguration.from_sdp_tag (.Record
        [.Attribute attribute_id.hid.HID_BATTERY_POWER (.Boolean b1),
         .Attribute attribute_id.hid.HID_BATTERY_POWER (.Boolean b2)]) =
      .error (.DuplicateAttribute attribute_id.hid.HID_BATTERY_POWER "HID Battery Power")) ∧
    (PartialConfiguration.from_sdp_tag (.Record
        [.Attribute attribute_id.hid.HID_REMOTE_WAKE (.Boolean b1),
         .Attribute attribute_id.hid.HID_REMOTE_WAKE (.Boolean b2)]) =
      .error (.DuplicateAttribute attribute_id.hid.HID_REMOTE_WAKE "HID Remote Wake")) ∧
    (PartialConfiguration.from_sdp_tag (.Record
        [.Attribute attribute_id.hid.HID_SUPERVISION_TIMEOUT (.UInt16 n1),
         .Attribute attribute_id.hid.HID_SUPERVISION_TIMEOUT (.UInt16 n2)]) =
      .error (.DuplicateAttribute attribute_id.hid.HID_SUPERVISION_TIMEOUT
        "HID Supervision Timeout")) ∧
    (PartialConfiguration.from_sdp_tag (.Record
        [.Attribute attribute_id.hid.HID_NORMALLY_CONNECTABLE (.Boolean b1),
         .Attribute attribute_id.hid.HID_NORMALLY_CONNECTABLE (.Boolean b2)]) =
      .error (.DuplicateAttribute attribute_id.hid.HID_NORMALLY_CONNECTABLE
        "HID Normally Connectable")) ∧
    (PartialConfiguration.from_sdp_tag (.Record
        [.Attribute attribute_id.hid.HID_BOOT_DEVICE (.Boolean b1),
         .Attribute attribute_id.hid.HID_BOOT_DEVICE (.Boolean b2)]) =
      .error (.DuplicateAttribute attribute_id.hid.HID_BOOT_DEVICE "HID Boot Device")) ∧
    (PartialConfiguration.from_sdp_tag (.Record
        [.Attribute attribute_id.hid.HID_SSR_HOST_MAX_LATENCY (.UInt16 n1),
         .Attribute attribute_id.hid.HID_SSR_HOST_MAX_LATENCY (.UInt16 n2)]) =
      .error (.DuplicateAttribute attribute_id.hid.HID_SSR_HOST_MAX_LATENCY
        "HID SSR Host Max Latency")) ∧
    (PartialConfiguration.from_sdp_tag (.Record
        [.Attribute attribute_id.hid.HID_SSR_HOST_MIN_TIMEOUT (.UInt16 n1),
         .Attribute attribute_id.hid.HID_SSR_HOST_MIN_TIMEOUT (.UInt16 n2)]) =
      .error (.DuplicateAttribute attribute_id.hid.HID_SSR_HOST_MIN_TIMEOUT
        "HID SSR Host Min Timeout")) ∧
    (PartialConfiguration.from_sdp_tag (.Record
        [.Attribute attribute_id.SERVICE_NAME (.Text s1)]) =
      .ok { PartialConfiguration.default with service_name := some s1 }) := by
  intro s1 s2 b1 b2 n1 n2 a b x a2 b2n x2
  exact ⟨rfl, rfl, rfl, rfl, rfl, rfl, rfl, rfl, rfl, rfl, rfl, rfl, rfl, rfl, rfl, rfl, rfl⟩

/-- Claim C5: finalizing a draft that is complete except for one required
field — primary language ISO code, the first language-base entry (the HID
primary-language code), encoding, version, device subclass, country code,
virtual cable, reconnect initiate, or boot device — fails with a
completeness error naming exactly that field. -/
theorem claim_C5_missing_required :
    ∀ (pl enc ver dsc cc : Nat) (vc ri bd : Bool) (l : hid.LanguageBase)
      (ls : List hid.LanguageBase),
    (Configuration.try_from (requiredDraft none (some enc) (some ver) (some dsc)
        (some cc) (some vc) (some ri) (some bd) (l :: ls)) =
      .error (.MissingRecord "primary language")) ∧
    (Configuration.try_from (requiredDraft (some pl) (some enc) (some ver) (some dsc)
        (some cc) (some vc) (some ri) (some bd) []) =
      .error (.MissingRecord "HID language")) ∧
    (Configuration.try_from (requiredDraft (some pl) none (some ver) (some dsc)
        (some cc) (some vc) (some ri) (some bd) (l :: ls)) =
      .error (.MissingRecord "encoding")) ∧
    (Configuration.try_from (requiredDraft (some pl) (some enc) none (some dsc)
        (some cc) (some vc) (some ri) (some bd) (l :: ls)) =
      .error (.MissingRecord "version")) ∧
    (Configuration.try_from (requiredDraft (some pl) (some enc) (some ver) none
        (some cc) (some vc) (some ri) (some bd) (l :: ls)) =
      .error (.MissingRecord "device subclass")) ∧
    (Configuration.try_from (requiredDraft (some pl) (some enc) (some ver) (some dsc)
        none (some vc) (some ri) (some bd) (l :: ls)) =
      .error (.MissingRecord "country code")) ∧
    (Configuration.try_from (requiredDraft (some pl) (some enc) (some ver) (some dsc)
        (some cc) none (some ri) (some bd) (l :: ls)) =
      .error (.MissingRecord "virtual cable")) ∧
    (Configuration.try_from (requiredDraft (some pl) (some enc) (some ver) (some dsc)
        (some cc) (some vc) none (some bd) (l :: ls)) =
      .error (.MissingRecord "reconnect initiate")) ∧
    (Configuration.try_from (requiredDraft (some pl) (some enc) (some ver) (some dsc)
        (some cc) (some vc) (some ri) none (l :: ls)) =
      .error (.MissingRecord "boot device")) := by
  intro pl enc ver dsc cc vc ri bd l ls
  exact ⟨rfl, rfl, rfl, rfl, rfl, rfl, rfl, rfl, rfl⟩

/-- Claim C6: each HID descriptor-list entry must be a sequence holding
exactly one 8-bit type element and exactly one text-or-raw-bytes payload
element, accepted in either order (a `Text` payload is stored as its UTF-8
bytes); any other element kind is an unexpected-tag error; a second type is a
duplicate-descriptor-id error; a second payload is a duplicate-descriptor-text
error; a missing type is a "descriptor id" missing error; a type without a
payload is a "descriptor value" missing error; and well-formed entries append
`ClassDescriptor(type, payload)` in entry order. -/
theorem claim_C6_descriptor_entries :
    ∀ (t t2 : Nat) (d d2 : List Nat) (s : String) (e : Tag),
    (PartialConfiguration.from_sdp_tag (.Record
        [.Attribute attribute_id.hid.HID_DESCRIPTOR_LIST
           (.Sequence [.Sequence [.UInt8 t, .RawText d],
                       .Sequence [.RawText d2, .UInt8 t2]])]) =
      .ok { PartialConfiguration.default with
              hid_descriptor_list := [⟨t, d⟩, ⟨t2, d2⟩] }) ∧
    (PartialConfiguration.from_sdp_tag (.Record
        [.Attribute attribute_id.hid.HID_DESCRIPTOR_LIST
           (.Sequence [.Sequence [.UInt8 t, .Text s]])]) =
      .ok { PartialConfiguration.default with
              hid_descriptor_list := [⟨t, s.toUTF8.toList.map UInt8.toNat⟩] }) ∧
    (PartialConfiguration.from_sdp_tag (.Record
        [.Attribute attribute_id.hid.HID_DESCRIPTOR_LIST
           (.Sequence [.Sequence [.UInt8 t, .UInt8 t2]])]) =
      .error .DuplicateDescriptorId) ∧
    (PartialConfiguration.from_sdp_tag (.Record
        [.Attribute attribute_id.hid.HID_DESCRIPTOR_LIST
           (.Sequence [.Sequence [.UInt8 t, .RawText d, .Text s]])]) =
      .error .DuplicateDescriptorText) ∧
    (PartialConfiguration.from_sdp_tag (.Record
        [.Attribute attribute_id.hid.HID_DESCRIPTOR_LIST
           (.Sequence [.Sequence ([] : List Tag)])]) =
      .error (.MissingRecord "descriptor id")) ∧
    (PartialConfiguration.from_sdp_tag (.Record
        [.Attribute attribute_id.hid.HID_DESCRIPTOR_LIST
           (.Sequence [.Sequence [.RawText d]])]) =
      .error (.MissingRecord "descriptor id")) ∧
    (PartialConfiguration.from_sdp_tag (.Record
        [.Attribute attribute_id.hid.HID_DESCRIPTOR_LIST
           (.Sequence [.Sequence [.UInt8 t]])]) =
      .error (.MissingRecord "descriptor value")) ∧
    (isDescriptorElemTag e = false →
      PartialConfiguration.from_sdp_tag (.Record
          [.Attribute attribute_id.hid.HID_DESCRIPTOR_LIST
             (.Sequence [.Sequence [e]])]) =
        .error (.UnexpectedTag e)) := by
  intro t t2 d d2 s e
  refine ⟨rfl, rfl, rfl, rfl, rfl, rfl, rfl, ?_⟩
  intro h
  cases e with
  | UInt8 v => simp [isDescriptorElemTag] at h
  | Text v => simp [isDescriptorElemTag] at h
  | RawText v => simp [isDescriptorElemTag] at h
  | Boolean v => rfl
  | UInt16 v => rfl
  | Uuid v => rfl
  | Sequence l => rfl
  | Attribute i c => rfl
  | Record l => rfl

/-- Claim C6 (witness): the unexpected-tag conjunct at a concrete input — a
boolean element inside a descriptor entry fails decode with an
unexpected-tag error naming that element. -/
theorem claim_C6_witness :
    isDescriptorElemTag (Tag.Boolean true) = false ∧
    PartialConfiguration.from_sdp_tag (.Record
        [.Attribute attribute_id.hid.HID_DESCRIPTOR_LIST
           (.Sequence [.Sequence [Tag.Boolean true]])]) =
      .error (.UnexpectedTag (Tag.Boolean true)) :=
  ⟨rfl, (claim_C6_descriptor_entries 0 0 [] [] "" (Tag.Boolean true)).2.2.2.2.2.2.2 rfl⟩

/-- Claim C7: an attribute whose 16-bit id is outside the known dispatch
table never causes a decode error — the draft equals the one produced from
the same record with that attribute removed, and a record holding only the
unknown attribute decodes to the empty draft. -/
theorem claim_C7_unknown_ignored (id : Nat) (h : id ∉ knownAttributeIds) (v : Tag)
    (pre post : List Tag) :
    (PartialConfiguration.from_sdp_tag (.Record (pre ++ .Attribute id v :: post)) =
      PartialConfiguration.from_sdp_tag (.Record (pre ++ post))) ∧
    (PartialConfiguration.from_sdp_tag (.Record [.Attribute id v]) =
      .ok PartialConfiguration.default) := by
  constructor
  · rw [from_sdp_tag_record, from_sdp_tag_record, collectAttributes_append,
      collectAttributes_append]
    cases collectAttributes pre with
    | error e => rfl
    | ok a =>
      have hc : collectAttributes (Tag.Attribute id v :: post) =
          (collectAttributes post) >>= (fun tl => .ok ((id, v) :: tl)) := rfl
      rw [hc]
      cases collectAttributes post with
      | error e => rfl
      | ok b =>
        simp only [exc_bind_ok]
        exact processAttributes_skip_unknown b h v a PartialConfiguration.default
  · rw [from_sdp_tag_record]
    have hc : collectAttributes [Tag.Attribute id v] = .ok [(id, v)] := rfl
    rw [hc, exc_bind_ok, processAttributes_cons, readAttribute_unknown _ _ h, exc_bind_ok]
    rfl

/-- Claim C7 (witness): the unknown id 0x9999 is dropped from a record that
also carries a service-name attribute, and decodes alone to the empty
draft. -/
theorem claim_C7_witness :
    (0x9999 : Nat) ∉ knownAttributeIds ∧
    (PartialConfiguration.from_sdp_tag (.Record
        ([.Attribute attribute_id.SERVICE_NAME (.Text "kbd")] ++
          .Attribute 0x9999 (.Boolean true) :: [])) =
      PartialConfiguration.from_sdp_tag (.Record
        ([.Attribute attribute_id.SERVICE_NAME (.Text "kbd")] ++ []))) ∧
    (PartialConfiguration.from_sdp_tag (.Record [.Attribute 0x9999 (.Boolean true)]) =
      .ok PartialConfiguration.default) := by
  have h : (0x9999 : Nat) ∉ knownAttributeIds := by decide
  have h2 := claim_C7_unknown_ignored 0x9999 h (.Boolean true)
    [.Attribute attribute_id.SERVICE_NAME (.Text "kbd")] []
  exact ⟨h, h2.1, h2.2⟩

theorem readAttr_lbail_badlen (pc : PartialConfiguration) (xs : List Tag)
    (h : xs.length ≠ 3) :
    readAttribute pc attribute_id.LANGUAGE_BASE_ATTRIBUTE_ID_LIST (.Sequence xs) =
      .error (.UnexpectedSequenceLen attribute_id.LANGUAGE_BASE_ATTRIBUTE_ID_LIST 3
        xs.length) := by
  have h1 : readAttribute pc attribute_id.LANGUAGE_BASE_ATTRIBUTE_ID_LIST (.Sequence xs) =
      (expectLen attribute_id.LANGUAGE_BASE_ATTRIBUTE_ID_LIST xs 3) >>= (fun _ =>
        match xs with
        | x0 :: x1 :: _ => do
          let lang ← expectUInt16 attribute_id.LANGUAGE_BASE_ATTRIBUTE_ID_LIST x0
          let enc ← expectUInt16 attribute_id.LANGUAGE_BASE_ATTRIBUTE_ID_LIST x1
          let pl ← tryInitAttr pc.primary_language lang
            attribute_id.LANGUAGE_BASE_ATTRIBUTE_ID_LIST "Language Base Attribute ID List"
          let en ← tryInitAttr pc.encoding enc
            attribute_id.LANGUAGE_BASE_ATTRIBUTE_ID_LIST "Language Base Attribute ID List"
          .ok { pc with primary_language := pl, encoding := en }
        | _ => .error (.MissingRecord "unreachable")) := rfl
  rw [h1]
  rw [show expectLen attribute_id.LANGUAGE_BASE_ATTRIBUTE_ID_LIST xs 3 =
      .error (.UnexpectedSequenceLen attribute_id.LANGUAGE_BASE_ATTRIBUTE_ID_LIST 3
        xs.length) from if_pos h]
  rfl

/-- Claim C8: a record whose language-base-id-list attribute holds a sequence
of length `n ≠ 3` fails decode with a length-mismatch error carrying the
attribute id, expected 3 and actual `n`. -/
theorem claim_C8_lang_base_arity (xs : List Tag) (h : xs.length ≠ 3) :
    PartialConfiguration.from_sdp_tag (.Record
        [.Attribute attribute_id.LANGUAGE_BASE_ATTRIBUTE_ID_LIST (.Sequence xs)]) =
      .error (.UnexpectedSequenceLen attribute_id.LANGUAGE_BASE_ATTRIBUTE_ID_LIST 3
        xs.length) := by
  rw [from_sdp_tag_record]
  have hc : collectAttributes
      [Tag.Attribute attribute_id.LANGUAGE_BASE_ATTRIBUTE_ID_LIST (.Sequence xs)] =
      .ok [(attribute_id.LANGUAGE_BASE_ATTRIBUTE_ID_LIST, Tag.Sequence xs)] := rfl
  rw [hc, exc_bind_ok, processAttributes_cons, readAttr_lbail_badlen _ _ h]
  rfl

/-- Claim C8 (witness): sequences of length 2 and of length 4 both fail with
expected 3 and the actual length reported. -/
theorem claim_C8_witness :
    (PartialConfiguration.from_sdp_tag (.Record
        [.Attribute attribute_id.LANGUAGE_BASE_ATTRIBUTE_ID_LIST
           (.Sequence [.UInt16 1, .UInt16 2])]) =
      .error (.UnexpectedSequenceLen attribute_id.LANGUAGE_BASE_ATTRIBUTE_ID_LIST 3 2)) ∧
    (PartialConfiguration.from_sdp_tag (.Record
        [.Attribute attribute_id.LANGUAGE_BASE_ATTRIBUTE_ID_LIST
           (.Sequence [.UInt16 1, .UInt16 2, .UInt16 3, .UInt16 4])]) =
      .error (.UnexpectedSequenceLen attribute_id.LANGUAGE_BASE_ATTRIBUTE_ID_LIST 3 4)) :=
  ⟨claim_C8_lang_base_arity [.UInt16 1, .UInt16 2] (by decide),
   claim_C8_lang_base_arity [.UInt16 1, .UInt16 2, .UInt16 3, .UInt16 4] (by decide)⟩

/-- Claim C9: a profile-descriptor-list whose inner UUID differs from the HID
service-class UUID fails decode with a UUID-mismatch error naming the
expected and the actual UUID; when the UUID matches, the second element is
stored as the draft's version. -/
theorem claim_C9_profile_uuid (u ver : Nat) :
    (u ≠ HID_SERVICE_UUID →
      PartialConfiguration.from_sdp_tag (.Record
          [.Attribute attribute_id.BLUETOOTH_PROFILE_DESCRIPTOR_LIST
             (.Sequence [.Sequence [.Uuid u, .UInt16 ver]])]) =
        .error (.UnexpectedUuid attribute_id.BLUETOOTH_PROFILE_DESCRIPTOR_LIST
          HID_SERVICE_UUID u)) ∧
    (PartialConfiguration.from_sdp_tag (.Record
        [.Attribute attribute_id.BLUETOOTH_PROFILE_DESCRIPTOR_LIST
           (.Sequence [.Sequence [.Uuid HID_SERVICE_UUID, .UInt16 ver]])]) =
      .ok { PartialConfiguration.default with version := some ver }) := by
  constructor
  · intro h
    have hb : readAttribute PartialConfiguration.default
        attribute_id.BLUETOOTH_PROFILE_DESCRIPTOR_LIST
        (.Sequence [.Sequence [.Uuid u, .UInt16 ver]]) =
        (expectUuid attribute_id.BLUETOOTH_PROFILE_DESCRIPTOR_LIST (Tag.Uuid u)
          (uuidFromU16 0x1124)) >>= (fun _ => do
            let version ← expectUInt16 attribute_id.BLUETOOTH_PROFILE_DESCRIPTOR_LIST
              (Tag.UInt16 ver)
            let f ← tryInitAttr PartialConfiguration.default.version version
              attribute_id.BLUETOOTH_PROFILE_DESCRIPTOR_LIST "Profile Descriptor List"
            Except.ok { PartialConfiguration.default with version := f }) := rfl
    have hc : collectAttributes
        [Tag.Attribute attribute_id.BLUETOOTH_PROFILE_DESCRIPTOR_LIST
           (.Sequence [.Sequence [.Uuid u, .UInt16 ver]])] =
        .ok [(attribute_id.BLUETOOTH_PROFILE_DESCRIPTOR_LIST,
              Tag.Sequence [.Sequence [.Uuid u, .UInt16 ver]])] := rfl
    rw [from_sdp_tag_record, hc, exc_bind_ok, processAttributes_cons, hb]
    have h2 : expectUuid attribute_id.BLUETOOTH_PROFILE_DESCRIPTOR_LIST (Tag.Uuid u)
        (uuidFromU16 0x1124) =
        .error (.UnexpectedUuid attribute_id.BLUETOOTH_PROFILE_DESCRIPTOR_LIST
          (uuidFromU16 0x1124) u) := by
      simp only [expectUuid]
      rw [if_neg (fun he => h he.symm)]
    rw [h2]
    rfl
  · rfl

/-- Claim C9 (witness): the keyboard UUID alias 0x1111 is rejected naming
the expected HID UUID and the actual one; the matching UUID stores version
0x0101. -/
theorem claim_C9_witness :
    (PartialConfiguration.from_sdp_tag (.Record
        [.Attribute attribute_id.BLUETOOTH_PROFILE_DESCRIPTOR_LIST
           (.Sequence [.Sequence [.Uuid (uuidFromU16 0x1111), .UInt16 0x0101]])]) =
      .error (.UnexpectedUuid attribute_id.BLUETOOTH_PROFILE_DESCRIPTOR_LIST
        HID_SERVICE_UUID (uuidFromU16 0x1111))) ∧
    (PartialConfiguration.from_sdp_tag (.Record
        [.Attribute attribute_id.BLUETOOTH_PROFILE_DESCRIPTOR_LIST
           (.Sequence [.Sequence [.Uuid HID_SERVICE_UUID, .UInt16 0x0101]])]) =
      .ok { PartialConfiguration.default with version := some 0x0101 }) :=
  ⟨(claim_C9_profile_uuid (uuidFromU16 0x1111) 0x0101).1 (by decide),
   (claim_C9_profile_uuid HID_SERVICE_UUID 0x0101).2⟩

theorem require_eq_ok {T : Type} {o : Option T} {e : Error} {v : T}
    (h : require o e = .ok v) : o = some v := by
  cases o with
  | some a =>
    have ha : (Except.ok a : Except Error T) = .ok v := h
    cases ha
    rfl
  | none => exact Except.noConfusion h

/-- Claim C10: a successfully finalized configuration's
`hid.additional_languages` is the entire accumulated language-base list of
the draft (the first entry is not removed even though it also supplies
`primary_language.hid_code`), so the list is non-empty and
`primary_language.hid_code` equals the `language` of its first element. -/
theorem claim_C10_additional_languages (pc : PartialConfiguration) (c : Configuration)
    (h : Configuration.try_from pc = .ok c) :
    c.hid.additional_languages = pc.hid_lang_base_id_list ∧
    c.hid.additional_languages ≠ [] ∧
    c.hid.additional_languages.head?.map hid.LanguageBase.language =
      some c.primary_language.hid_code := by
  rw [Configuration.try_from] at h
  obtain ⟨iso, h1, h⟩ := exc_bind_eq_ok h
  obtain ⟨fl, h2, h⟩ := exc_bind_eq_ok h
  obtain ⟨enc, h3, h⟩ := exc_bind_eq_ok h
  obtain ⟨ver, h4, h⟩ := exc_bind_eq_ok h
  obtain ⟨dsc, h5, h⟩ := exc_bind_eq_ok h
  obtain ⟨cc, h6, h⟩ := exc_bind_eq_ok h
  obtain ⟨vc, h7, h⟩ := exc_bind_eq_ok h
  obtain ⟨ri, h8, h⟩ := exc_bind_eq_ok h
  obtain ⟨bd, h9, h⟩ := exc_bind_eq_ok h
  have hl : pc.hid_lang_base_id_list.head? = some fl := require_eq_ok h2
  have hfin : (Except.ok
      { primary_language := { iso_code := iso, hid_code := fl.language }
        encoding := enc
        service_name := pc.service_name
        service_description := pc.service_description
        provider_name := pc.provider_name
        version := ver
        hid := { device_subclass := dsc
                 country_code := cc
                 virtual_cable := vc
                 reconnect_initiate := ri
                 class_descriptors := pc.hid_descriptor_list
                 additional_languages := pc.hid_lang_base_id_list
                 battery_power := pc.hid_battery_power
                 remote_wake := pc.hid_remote_wake
                 supervision_timeout := pc.hid_supervision_timeout
                 normally_connectable := pc.hid_normally_connectable
                 boot_device := bd
                 ssr_host_max_latency := pc.hid_ssr_host_max_latency
                 ssr_host_min_timeout := pc.hid_ssr_host_min_timeout } } :
      Except Error Configuration) = .ok c := h
  cases hfin
  refine ⟨rfl, ?_, ?_⟩
  · intro hnil
    have hn : pc.hid_lang_base_id_list = [] := hnil
    rw [hn] at hl
    exact Option.noConfusion hl
  · show pc.hid_lang_base_id_list.head?.map hid.LanguageBase.language = some fl.language
    rw [hl]
    rfl

/-- Claim C10 (witness): at a concrete complete draft, the finalized
configuration keeps the whole language-base list, which is non-empty and
leads with the HID primary-language code. -/
theorem claim_C10_witness :
    exampleFinal.hid.additional_languages = examplePartial.hid_lang_base_id_list ∧
    exampleFinal.hid.additional_languages ≠ [] ∧
    exampleFinal.hid.additional_languages.head?.map hid.LanguageBase.language =
      some exampleFinal.primary_language.hid_code :=
  claim_C10_additional_languages examplePartial exampleFinal rfl

end HidConfig
